import Mathlib

/-!
Verification of the TeleStack bot (src/main.py): a chat-driven control panel
for OpenStack machines. The embedding below models the data the handlers
inspect (machines, flavors), the cloud accessor as an environment of
possibly-failing operations, and each handler as a pure function returning
the list of cloud calls it issues together with either the reply message it
displays or a raised exception. Python exceptions are modelled with
`Except Unit`; the trace of cloud calls issued before a failure is kept.
-/

namespace TeleStack

/-- A machine (server) as returned by the cloud accessor: `machine.id`,
`machine.name`, `machine.status`, `machine.flavor.id` in the source. -/
structure Machine where
  id : String
  name : String
  status : String
  flavorId : String
deriving DecidableEq

/-- A flavor as returned by `conn.compute.find_flavor`. -/
structure Flavor where
  name : String
  ram : Nat
  vcpus : Nat
  disk : Nat
deriving DecidableEq

/-- One call to the cloud accessor, in the order the handlers issue them.
`connect` is `openstack.connect` in `connect_to_openstack`; the others are
the `conn.compute.*` operations. -/
inductive CloudCall where
  | connect
  | servers
  | getServer (id : String)
  | findFlavor (id : String)
  | startServer (id : String)
  | stopServer (id : String)
  | rebootServer (id : String) (mode : String)
deriving DecidableEq

/-- What an update handler does towards the operator: edits the message with
some text, finishes without replying, or lets an exception propagate out of
the handler (so the program itself sends nothing). -/
inductive Outcome where
  | replied (msg : String)
  | noReply
  | propagated
deriving DecidableEq

/-- Result of processing one inbound update: the cloud calls issued, in
order, and the outcome towards the operator. -/
structure BotResult where
  calls : List CloudCall
  outcome : Outcome
deriving DecidableEq

/-- The cloud environment: the outcome of each accessor operation.
`connectOk = false` means `openstack.connect` raises; an `Except.error`
value means that operation raises when called. -/
structure Cloud where
  connectOk : Bool
  serversRes : Except Unit (List Machine)
  getServerRes : String → Except Unit Machine
  findFlavorRes : String → Except Unit Flavor
  startRes : String → Except Unit Unit
  stopRes : String → Except Unit Unit
  rebootRes : String → Except Unit Unit

/-- Model of `str.lower()` on the ASCII range, as the status comparisons use it. -/
def strLower (s : String) : String := String.mk (s.data.map Char.toLower)

/-- Model of `data.startswith(p)` from the callback-routing chain. -/
def strStartsWith (s p : String) : Bool := p.data.isPrefixOf s.data

/-- Python `str.split("_")` on the character list: splits at every
underscore, keeping empty groups, and yields one group even for the empty
string. -/
def splitU : List Char → List (List Char)
  | [] => [[]]
  | c :: rest =>
    match splitU rest with
    | [] => [[]]
    | g :: gs => if c = '_' then [] :: g :: gs else (c :: g) :: gs

/-- Model of `query.data.split("_")[1]`: the group between the first and second
underscore (the whole remainder when there is no second underscore). The
handlers only evaluate it on data that contains an underscore, so group 1
exists there; out of that range we default to the empty string. -/
def machineIdOf (data : String) : String :=
  String.mk ((splitU data.data).getD 1 [])

/-- Function `get_status_emoji` (src/main.py:228): lowercase the status, then a fixed
four-way lookup. -/
def getStatusEmoji (status : String) : String :=
  let status := strLower status
  if status = "active" then "🟢"
  else if status = "shutoff" then "🔴"
  else if status = "build" ∨ status = "rebuild" then "🟡"
  else "⚪"

/-- The aggregate counts computed by `status_command` and
`handle_system_status`: filter to allow-listed machines, count the active
and shutoff ones, and compute `other` by (truncated) subtraction exactly as
the source does. -/
structure StatusCounts where
  total : Nat
  active : Nat
  shutoff : Nat
  other : Nat
deriving DecidableEq

/-- Counts `total/active/shutoff/other` from src/main.py:50-55 and 212-217. -/
def statusCounts (allowed : List String) (machines : List Machine) : StatusCounts :=
  let allowedMachines := machines.filter (fun m => allowed.contains m.name)
  let total := allowedMachines.length
  let active := allowedMachines.countP (fun m => strLower m.status = "active")
  let shutoff := allowedMachines.countP (fun m => strLower m.status = "shutoff")
  { total := total, active := active, shutoff := shutoff,
    other := total - active - shutoff }

/-- The status text built by `status_command` and `handle_system_status`. -/
def systemStatusText (allowed : List String) (machines : List Machine) : String :=
  let c := statusCounts allowed machines
  "📊 System Status:\n\nTotal Machines: " ++ toString c.total ++
    "\n🟢 Active: " ++ toString c.active ++
    "\n🔴 Shutoff: " ++ toString c.shutoff ++
    "\n⚪ Other: " ++ toString c.other ++ "\n"

/-- The denial text `button` sends when the chat id is not allow-listed. -/
def accessDeniedText : String := "⛔ Access Denied."

/-- The denial text the per-machine handlers send when the machine's name is
not allow-listed. -/
def machineDeniedText : String :=
  "⛔ Access Denied: This machine is not in your allowed projects."

/-- Text `error_text` in `button`; the reply is `"❌ " ++ errorText`. -/
def errorText : String := "An unexpected error occurred. Please try again later."

/-- Reply text of `handle_start_all`. -/
def startedText (n : Nat) : String :=
  "▶️ Started " ++ toString n ++ " machine(s)."

/-- Reply text of `handle_stop_all`. -/
def stoppedText (n : Nat) : String :=
  "⏹️ Stopped " ++ toString n ++ " machine(s)."

/-- Text of the main menu shown by `show_main_menu`. -/
def mainMenuText : String := "Welcome to OpenStack Bot! 👋 Choose an action:"

/-- The selection condition of `handle_start_all`
(src/main.py:125): allow-listed and not already active. -/
def startAllPred (allowed : List String) (m : Machine) : Bool :=
  allowed.contains m.name && !(strLower m.status = "active")

/-- The selection condition of `handle_stop_all`
(src/main.py:134): allow-listed and not already shut off. -/
def stopAllPred (allowed : List String) (m : Machine) : Bool :=
  allowed.contains m.name && !(strLower m.status = "shutoff")

/-- The loop of `handle_start_all`: walk the machine list, start each
selected machine (a raising start call aborts the loop), count the starts. -/
def startAllLoop (cloud : Cloud) (allowed : List String) :
    List Machine → Nat → List CloudCall × Except Unit Nat
  | [], count => ([], Except.ok count)
  | m :: rest, count =>
    if startAllPred allowed m then
      match cloud.startRes m.id with
      | Except.error _ => ([CloudCall.startServer m.id], Except.error ())
      | Except.ok _ =>
        let r := startAllLoop cloud allowed rest (count + 1)
        (CloudCall.startServer m.id :: r.1, r.2)
    else startAllLoop cloud allowed rest count

/-- Handler `handle_start_all` (src/main.py:121): enumerate, start every selected
machine, report the count. -/
def handleStartAll (allowed : List String) (cloud : Cloud) :
    List CloudCall × Except Unit (Option String) :=
  match cloud.serversRes with
  | Except.error _ => ([CloudCall.servers], Except.error ())
  | Except.ok machines =>
    match startAllLoop cloud allowed machines 0 with
    | (calls, Except.error _) => (CloudCall.servers :: calls, Except.error ())
    | (calls, Except.ok n) =>
      (CloudCall.servers :: calls, Except.ok (some (startedText n)))

/-- The loop of `handle_stop_all`, mirror of `startAllLoop`. -/
def stopAllLoop (cloud : Cloud) (allowed : List String) :
    List Machine → Nat → List CloudCall × Except Unit Nat
  | [], count => ([], Except.ok count)
  | m :: rest, count =>
    if stopAllPred allowed m then
      match cloud.stopRes m.id with
      | Except.error _ => ([CloudCall.stopServer m.id], Except.error ())
      | Except.ok _ =>
        let r := stopAllLoop cloud allowed rest (count + 1)
        (CloudCall.stopServer m.id :: r.1, r.2)
    else stopAllLoop cloud allowed rest count

/-- Handler `handle_stop_all` (src/main.py:130). -/
def handleStopAll (allowed : List String) (cloud : Cloud) :
    List CloudCall × Except Unit (Option String) :=
  match cloud.serversRes with
  | Except.error _ => ([CloudCall.servers], Except.error ())
  | Except.ok machines =>
    match stopAllLoop cloud allowed machines 0 with
    | (calls, Except.error _) => (CloudCall.servers :: calls, Except.error ())
    | (calls, Except.ok n) =>
      (CloudCall.servers :: calls, Except.ok (some (stoppedText n)))

/-- Handler `handle_view_machines` (src/main.py:139): enumerate, filter to the
allow-list, show either the empty notice or the selection menu. -/
def handleViewMachines (allowed : List String) (cloud : Cloud) :
    List CloudCall × Except Unit (Option String) :=
  match cloud.serversRes with
  | Except.error _ => ([CloudCall.servers], Except.error ())
  | Except.ok machines =>
    let allowedMachines := machines.filter (fun m => allowed.contains m.name)
    if allowedMachines.isEmpty then
      ([CloudCall.servers], Except.ok (some "No machines available."))
    else ([CloudCall.servers], Except.ok (some "Select a machine:"))

/-- The details text built by `handle_details` (src/main.py:164). -/
def detailsText (machine : Machine) (flavor : Flavor) : String :=
  "🖥️ Machine: " ++ machine.name ++
    "\nStatus: " ++ getStatusEmoji machine.status ++ " " ++ machine.status ++
    "\nFlavor: " ++ flavor.name ++
    "\nRAM: " ++ toString flavor.ram ++ " MB" ++
    "\nvCPUs: " ++ toString flavor.vcpus ++
    "\nDisk: " ++ toString flavor.disk ++ " GB"

/-- Handler `handle_details` (src/main.py:158): parse the id, fetch the machine and
its flavor, display the details. Note there is no allow-list check here. -/
def handleDetails (data : String) (cloud : Cloud) :
    List CloudCall × Except Unit (Option String) :=
  let mid := machineIdOf data
  match cloud.getServerRes mid with
  | Except.error _ => ([CloudCall.getServer mid], Except.error ())
  | Except.ok machine =>
    match cloud.findFlavorRes machine.flavorId with
    | Except.error _ =>
      ([CloudCall.getServer mid, CloudCall.findFlavor machine.flavorId],
        Except.error ())
    | Except.ok flavor =>
      ([CloudCall.getServer mid, CloudCall.findFlavor machine.flavorId],
        Except.ok (some (detailsText machine flavor)))

/-- Handler `handle_start` (src/main.py:180): parse the id, fetch the machine, deny
if its name is not allow-listed, otherwise start it. The fetch happens
before the allow-list check, exactly as in the source. -/
def handleStart (allowed : List String) (data : String) (cloud : Cloud) :
    List CloudCall × Except Unit (Option String) :=
  let mid := machineIdOf data
  match cloud.getServerRes mid with
  | Except.error _ => ([CloudCall.getServer mid], Except.error ())
  | Except.ok machine =>
    if ¬ allowed.contains machine.name then
      ([CloudCall.getServer mid], Except.ok (some machineDeniedText))
    else
      match cloud.startRes mid with
      | Except.error _ =>
        ([CloudCall.getServer mid, CloudCall.startServer mid], Except.error ())
      | Except.ok _ =>
        ([CloudCall.getServer mid, CloudCall.startServer mid],
          Except.ok (some ("▶️ Starting machine: " ++ machine.name)))

/-- Handler `handle_stop` (src/main.py:190), mirror of `handleStart`. -/
def handleStop (allowed : List String) (data : String) (cloud : Cloud) :
    List CloudCall × Except Unit (Option String) :=
  let mid := machineIdOf data
  match cloud.getServerRes mid with
  | Except.error _ => ([CloudCall.getServer mid], Except.error ())
  | Except.ok machine =>
    if ¬ allowed.contains machine.name then
      ([CloudCall.getServer mid], Except.ok (some machineDeniedText))
    else
      match cloud.stopRes mid with
      | Except.error _ =>
        ([CloudCall.getServer mid, CloudCall.stopServer mid], Except.error ())
      | Except.ok _ =>
        ([CloudCall.getServer mid, CloudCall.stopServer mid],
          Except.ok (some ("⏹️ Stopping machine: " ++ machine.name)))

/-- Handler `handle_reboot` (src/main.py:200): like `handleStart` but rebooting with
the SOFT mode. -/
def handleReboot (allowed : List String) (data : String) (cloud : Cloud) :
    List CloudCall × Except Unit (Option String) :=
  let mid := machineIdOf data
  match cloud.getServerRes mid with
  | Except.error _ => ([CloudCall.getServer mid], Except.error ())
  | Except.ok machine =>
    if ¬ allowed.contains machine.name then
      ([CloudCall.getServer mid], Except.ok (some machineDeniedText))
    else
      match cloud.rebootRes mid with
      | Except.error _ =>
        ([CloudCall.getServer mid, CloudCall.rebootServer mid "SOFT"],
          Except.error ())
      | Except.ok _ =>
        ([CloudCall.getServer mid, CloudCall.rebootServer mid "SOFT"],
          Except.ok (some ("🔄 Rebooting machine: " ++ machine.name)))

/-- Handler `handle_system_status` (src/main.py:210). -/
def handleSystemStatus (allowed : List String) (cloud : Cloud) :
    List CloudCall × Except Unit (Option String) :=
  match cloud.serversRes with
  | Except.error _ => ([CloudCall.servers], Except.error ())
  | Except.ok machines =>
    ([CloudCall.servers], Except.ok (some (systemStatusText allowed machines)))

/-- The if/elif routing chain inside the try block of `button`
(src/main.py:92-113), in source order; an unmatched identifier falls
through with no call and no reply. -/
def route (allowed : List String) (data : String) (cloud : Cloud) :
    List CloudCall × Except Unit (Option String) :=
  if data = "start_all" then handleStartAll allowed cloud
  else if data = "stop_all" then handleStopAll allowed cloud
  else if data = "view_machines" then handleViewMachines allowed cloud
  else if strStartsWith data "details_" then handleDetails data cloud
  else if strStartsWith data "start_" then handleStart allowed data cloud
  else if strStartsWith data "stop_" then handleStop allowed data cloud
  else if strStartsWith data "reboot_" then handleReboot allowed data cloud
  else if data = "system_status" then handleSystemStatus allowed cloud
  else if data = "back_to_main" then ([], Except.ok (some mainMenuText))
  else ([], Except.ok none)

/-- The callback-query handler `button` (src/main.py:81): deny a chat id not
in the allow-list before any cloud call; then connect OUTSIDE the try
block, so a connect failure propagates; then route inside the try block,
where any raised exception is replaced by the generic error reply.
`chatId` stands for `str(chat_id)`. -/
def button (allowedChats allowedProjects : List String) (chatId data : String)
    (cloud : Cloud) : BotResult :=
  if ¬ allowedChats.contains chatId then
    { calls := [], outcome := Outcome.replied accessDeniedText }
  else if ¬ cloud.connectOk then
    { calls := [CloudCall.connect], outcome := Outcome.propagated }
  else
    match route allowedProjects data cloud with
    | (calls, Except.ok (some msg)) =>
      { calls := CloudCall.connect :: calls, outcome := Outcome.replied msg }
    | (calls, Except.ok none) =>
      { calls := CloudCall.connect :: calls, outcome := Outcome.noReply }
    | (calls, Except.error _) =>
      { calls := CloudCall.connect :: calls,
        outcome := Outcome.replied ("❌ " ++ errorText) }

/-- The `/status` command handler `status_command` (src/main.py:47): it
reads no chat id and performs no allow-list check; it connects, enumerates,
and replies with the aggregate counts. It has no try block, so any raised
exception propagates. -/
def statusCommand (allowed : List String) (cloud : Cloud) : BotResult :=
  if ¬ cloud.connectOk then
    { calls := [CloudCall.connect], outcome := Outcome.propagated }
  else
    match cloud.serversRes with
    | Except.error _ =>
      { calls := [CloudCall.connect, CloudCall.servers],
        outcome := Outcome.propagated }
    | Except.ok machines =>
      { calls := [CloudCall.connect, CloudCall.servers],
        outcome := Outcome.replied (systemStatusText allowed machines) }

/-- The machine list of the spec's worked example: web1 active, web2 shut
off, db1 active (statuses in the mixed case OpenStack reports). -/
def exMachines : List Machine :=
  [{ id := "id1", name := "web1", status := "ACTIVE", flavorId := "f1" },
   { id := "id2", name := "web2", status := "SHUTOFF", flavorId := "f1" },
   { id := "id3", name := "db1", status := "active", flavorId := "f1" }]

/-- A concrete flavor for the worked examples. -/
def exFlavor : Flavor := { name := "small", ram := 2048, vcpus := 2, disk := 20 }

/-- A concrete machine whose name `db1` is outside the allow-list
`["web1", "web2"]` used in the examples. -/
def dbMachine : Machine :=
  { id := "m1", name := "db1", status := "active", flavorId := "f1" }

/-- A cloud environment where every operation succeeds. -/
def exCloud : Cloud :=
  { connectOk := true
    serversRes := Except.ok exMachines
    getServerRes := fun _ => Except.ok dbMachine
    findFlavorRes := fun _ => Except.ok exFlavor
    startRes := fun _ => Except.ok ()
    stopRes := fun _ => Except.ok ()
    rebootRes := fun _ => Except.ok () }

/-- A cloud environment where establishing the connection raises. -/
def noConnectCloud : Cloud := { exCloud with connectOk := false }

/-- A cloud environment where the connection succeeds but enumerating the
servers raises. -/
def failServersCloud : Cloud := { exCloud with serversRes := Except.error () }

/-- Rebuilding a string from its character list gives the string back. -/
theorem string_mk_data (s : String) : String.mk s.data = s := rfl

/-- Unfolding equation of `splitU` on a cons cell. -/
theorem splitU_cons (c : Char) (rest : List Char) :
    splitU (c :: rest) =
      match splitU rest with
      | [] => [[]]
      | g :: gs => if c = '_' then [] :: g :: gs else (c :: g) :: gs := by
  rw [splitU]

/-- The group list produced by `splitU` is never empty. -/
theorem splitU_ne_nil : ∀ cs : List Char, splitU cs ≠ []
  | [] => by simp [splitU]
  | c :: rest => by
    rw [splitU_cons]
    cases hs : splitU rest with
    | nil => exact absurd hs (splitU_ne_nil rest)
    | cons g gs => by_cases hc : c = '_' <;> simp [hc]

/-- Splitting a list that starts with an underscore-free block followed by
an underscore yields that block as the first group. -/
theorem splitU_append (xs ys : List Char) (h : '_' ∉ xs) :
    splitU (xs ++ '_' :: ys) = xs :: splitU ys := by
  induction xs with
  | nil =>
    rw [List.nil_append, splitU_cons]
    cases hs : splitU ys with
    | nil => exact absurd hs (splitU_ne_nil ys)
    | cons g gs => simp
  | cons x xs ih =>
    have hx : x ≠ '_' := fun e => h (e ▸ List.mem_cons_self x xs)
    have hxs : '_' ∉ xs := fun hm => h (List.mem_cons_of_mem x hm)
    rw [List.cons_append, splitU_cons, ih hxs]
    simp [hx]

/-- Two Boolean predicates that never hold together count at most the whole
list between them. -/
theorem countP_disjoint_le {α : Type} (p q : α → Bool) (l : List α)
    (h : ∀ a, p a = true → q a = false) :
    l.countP p + l.countP q ≤ l.length := by
  induction l with
  | nil => simp
  | cons a l ih =>
    simp only [List.countP_cons, List.length_cons]
    by_cases hp : p a = true
    · have hq := h a hp
      rw [if_pos hp, if_neg (by rw [hq]; exact Bool.false_ne_true)]
      omega
    · rw [if_neg hp]
      by_cases hq2 : q a = true
      · rw [if_pos hq2]; omega
      · rw [if_neg hq2]; omega

/-- C6: for every machine list, the aggregation of `status_command` and
`handle_system_status` satisfies total = active + shutoff + other, where
total counts the allow-listed machines, active and shutoff count those
whose lowercased status is `active` resp. `shutoff`, and other is the
remainder. -/
theorem C6_status_aggregation (allowed : List String) (machines : List Machine) :
    (statusCounts allowed machines).total =
      (statusCounts allowed machines).active +
        (statusCounts allowed machines).shutoff +
        (statusCounts allowed machines).other := by
  unfold statusCounts
  dsimp only
  have hd : ∀ m : Machine,
      decide (strLower m.status = "active") = true →
      decide (strLower m.status = "shutoff") = false := by
    intro m h1
    rw [decide_eq_true_eq] at h1
    rw [decide_eq_false_iff_not]
    intro h2
    rw [h1] at h2
    exact absurd h2 (by decide)
  have hle := countP_disjoint_le (fun m : Machine => decide (strLower m.status = "active"))
    (fun m : Machine => decide (strLower m.status = "shutoff"))
    (machines.filter (fun m => allowed.contains m.name)) hd
  omega

/-- C1, amended: every callback-button action invoked from a chat id whose
string form is not in the allowed chat-id list is answered with the
access-denied message and issues no cloud call at all. (The `/status`
command, by contrast, performs no chat-id check: see the counterexample.) -/
theorem C1_button_denied (allowedChats allowedProjects : List String)
    (chatId data : String) (cloud : Cloud)
    (h : allowedChats.contains chatId = false) :
    button allowedChats allowedProjects chatId data cloud =
      { calls := [], outcome := Outcome.replied accessDeniedText } := by
  unfold button
  rw [if_pos (by simpa using h)]

/-- Witness for C1: the concrete chat id 999 is outside the allow-list
[123], and its button press is denied with an empty call trace. -/
theorem C1_witness :
    button ["123"] ["web1", "web2"] "999" "start_all" exCloud =
      { calls := [], outcome := Outcome.replied accessDeniedText } :=
  C1_button_denied ["123"] ["web1", "web2"] "999" "start_all" exCloud (by decide)

/-- Counterexample to C1 as stated: the `/status` command handler never
consults the invoking chat id (the model therefore has no chat-id
parameter), so a chat id outside the allow-list that sends `/status` gets
cloud calls issued (connect, then enumerate) and receives the status
report, not the access-denied message. -/
theorem C1_counterexample :
    (statusCommand ["web1", "web2"] exCloud).calls ≠ [] ∧
      (statusCommand ["web1", "web2"] exCloud).outcome ≠
        Outcome.replied accessDeniedText := by
  constructor
  · decide
  · decide

/-- C2, amended: a per-machine start, stop, or reboot on a machine whose
name is not in the allowed resource-name list is rejected with the denial
message and no start/stop/reboot call is issued — but the handler does
first issue a get-server cloud call to resolve the machine's name. -/
theorem C2_denied_no_action (allowed : List String) (data : String)
    (cloud : Cloud) (m : Machine)
    (hget : cloud.getServerRes (machineIdOf data) = Except.ok m)
    (hden : allowed.contains m.name = false) :
    handleStart allowed data cloud =
      ([CloudCall.getServer (machineIdOf data)],
        Except.ok (some machineDeniedText)) ∧
    handleStop allowed data cloud =
      ([CloudCall.getServer (machineIdOf data)],
        Except.ok (some machineDeniedText)) ∧
    handleReboot allowed data cloud =
      ([CloudCall.getServer (machineIdOf data)],
        Except.ok (some machineDeniedText)) := by
  have hden2 : m.name ∉ allowed := by simpa using hden
  unfold handleStart handleStop handleReboot
  dsimp only
  rw [hget]
  simp [hden2]

/-- Witness for C2's amended theorem: machine m1 resolves to db1, which is
outside the allow-list, so the stop action is denied after the get call. -/
theorem C2_witness :
    handleStop ["web1", "web2"] "stop_m1" exCloud =
      ([CloudCall.getServer "m1"], Except.ok (some machineDeniedText)) := by
  have h := C2_denied_no_action ["web1", "web2"] "stop_m1" exCloud dbMachine
    rfl (by decide)
  exact h.2.1

/-- Counterexample to C2 as stated: the denied start on machine m1 (named
db1, not allow-listed) still issues a cloud accessor call — the get-server
call — so its call trace is not empty. -/
theorem C2_counterexample :
    handleStart ["web1", "web2"] "start_m1" exCloud =
      ([CloudCall.getServer "m1"], Except.ok (some machineDeniedText)) ∧
      ([CloudCall.getServer "m1"] : List CloudCall) ≠ [] := by
  exact ⟨rfl, by decide⟩

/-- When every start call succeeds, the start-all loop issues exactly one
start per selected machine, in list order, and counts them on top of the
running count. -/
theorem startAllLoop_ok (cloud : Cloud) (allowed : List String)
    (hstart : ∀ id, cloud.startRes id = Except.ok ()) (ms : List Machine) :
    ∀ count : Nat,
      startAllLoop cloud allowed ms count =
        ((ms.filter (startAllPred allowed)).map
            (fun m => CloudCall.startServer m.id),
          Except.ok (count + (ms.filter (startAllPred allowed)).length)) := by
  induction ms with
  | nil => intro count; simp [startAllLoop]
  | cons m rest ih =>
    intro count
    by_cases hp : startAllPred allowed m = true
    · rw [startAllLoop, if_pos hp, hstart m.id]
      dsimp only
      rw [ih (count + 1)]
      simp only [List.filter_cons_of_pos hp, List.map_cons, List.length_cons]
      have he : count + 1 + (rest.filter (startAllPred allowed)).length =
          count + ((rest.filter (startAllPred allowed)).length + 1) := by omega
      rw [he]
    · rw [startAllLoop, if_neg hp, ih count]
      rw [List.filter_cons_of_neg (by simpa using hp)]

/-- When every stop call succeeds, the stop-all loop issues exactly one
stop per selected machine, in list order, and counts them. -/
theorem stopAllLoop_ok (cloud : Cloud) (allowed : List String)
    (hstop : ∀ id, cloud.stopRes id = Except.ok ()) (ms : List Machine) :
    ∀ count : Nat,
      stopAllLoop cloud allowed ms count =
        ((ms.filter (stopAllPred allowed)).map
            (fun m => CloudCall.stopServer m.id),
          Except.ok (count + (ms.filter (stopAllPred allowed)).length)) := by
  induction ms with
  | nil => intro count; simp [stopAllLoop]
  | cons m rest ih =>
    intro count
    by_cases hp : stopAllPred allowed m = true
    · rw [stopAllLoop, if_pos hp, hstop m.id]
      dsimp only
      rw [ih (count + 1)]
      simp only [List.filter_cons_of_pos hp, List.map_cons, List.length_cons]
      have he : count + 1 + (rest.filter (stopAllPred allowed)).length =
          count + ((rest.filter (stopAllPred allowed)).length + 1) := by omega
      rw [he]
    · rw [stopAllLoop, if_neg hp, ih count]
      rw [List.filter_cons_of_neg (by simpa using hp)]

/-- C3: for every machine list the cloud enumeration returns, `start_all`
issues a start call exactly to the machines whose name is allow-listed and
whose lowercased status is not `active`, in list order, and reports exactly
their number. -/
theorem C3_start_all_exact (allowed : List String) (machines : List Machine)
    (cloud : Cloud) (hs : cloud.serversRes = Except.ok machines)
    (hstart : ∀ id, cloud.startRes id = Except.ok ()) :
    handleStartAll allowed cloud =
      (CloudCall.servers ::
          (machines.filter (startAllPred allowed)).map
            (fun m => CloudCall.startServer m.id),
        Except.ok (some (startedText
          (machines.filter (startAllPred allowed)).length))) := by
  unfold handleStartAll
  rw [hs]
  dsimp only
  rw [startAllLoop_ok cloud allowed hstart machines 0]
  simp

/-- Witness for C3, the spec's worked example: allow-list [web1, web2] and
machines web1 (active), web2 (shutoff), db1 (active); only web2 is started
and the reply reports one machine. -/
theorem C3_witness :
    handleStartAll ["web1", "web2"] exCloud =
      ([CloudCall.servers, CloudCall.startServer "id2"],
        Except.ok (some "▶️ Started 1 machine(s).")) := by
  have h := C3_start_all_exact ["web1", "web2"] exMachines exCloud rfl
    (fun _ => rfl)
  rw [h]
  rfl

/-- C4: for every machine list the cloud enumeration returns, `stop_all`
issues a stop call exactly to the machines whose name is allow-listed and
whose lowercased status is not `shutoff`, in list order, and reports
exactly their number. -/
theorem C4_stop_all_exact (allowed : List String) (machines : List Machine)
    (cloud : Cloud) (hs : cloud.serversRes = Except.ok machines)
    (hstop : ∀ id, cloud.stopRes id = Except.ok ()) :
    handleStopAll allowed cloud =
      (CloudCall.servers ::
          (machines.filter (stopAllPred allowed)).map
            (fun m => CloudCall.stopServer m.id),
        Except.ok (some (stoppedText
          (machines.filter (stopAllPred allowed)).length))) := by
  unfold handleStopAll
  rw [hs]
  dsimp only
  rw [stopAllLoop_ok cloud allowed hstop machines 0]
  simp

/-- Witness for C4 on the same machine list: web1 (active, allow-listed) is
stopped, web2 is already shut off, db1 is not allow-listed. -/
theorem C4_witness :
    handleStopAll ["web1", "web2"] exCloud =
      ([CloudCall.servers, CloudCall.stopServer "id1"],
        Except.ok (some "⏹️ Stopped 1 machine(s).")) := by
  have h := C4_stop_all_exact ["web1", "web2"] exMachines exCloud rfl
    (fun _ => rfl)
  rw [h]
  rfl

/-- C5, amended: for an allowed chat id, once the connection has been
established, any exception raised by a routed cloud call is caught by the
try block and surfaced as the single generic error reply. (An exception
from establishing the connection itself is raised outside the try block
and propagates instead: see the counterexample.) -/
theorem C5_caught_after_connect (allowedChats allowedProjects : List String)
    (chatId data : String) (cloud : Cloud)
    (hchat : allowedChats.contains chatId = true)
    (hconn : cloud.connectOk = true)
    (herr : (route allowedProjects data cloud).2 = Except.error ()) :
    (button allowedChats allowedProjects chatId data cloud).outcome =
      Outcome.replied ("❌ " ++ errorText) := by
  unfold button
  rw [if_neg (by simpa using hchat), if_neg (by simp [hconn])]
  rcases hq : route allowedProjects data cloud with ⟨calls, res⟩
  rw [hq] at herr
  dsimp only at herr
  subst herr
  rfl

/-- Witness for C5's amended theorem: the server enumeration raises inside
the try block, and the start-all action from the allowed chat 123 is
answered with the generic error reply. -/
theorem C5_witness :
    (button ["123"] ["web1", "web2"] "123" "start_all" failServersCloud).outcome =
      Outcome.replied ("❌ " ++ errorText) :=
  C5_caught_after_connect ["123"] ["web1", "web2"] "123" "start_all"
    failServersCloud rfl rfl rfl

/-- Counterexample to C5 as stated: `connect_to_openstack` is called before
the try block, so when establishing the connection raises for the allowed
chat 123, the exception propagates out of the handler and no generic error
reply (indeed no reply at all) is sent. -/
theorem C5_counterexample :
    button ["123"] ["web1", "web2"] "123" "start_all" noConnectCloud =
      { calls := [CloudCall.connect], outcome := Outcome.propagated } ∧
      Outcome.propagated ≠ Outcome.replied ("❌ " ++ errorText) :=
  ⟨rfl, by decide⟩

/-- C7, amended: the glyph rendering always yields one of the four glyphs;
it maps a status to green, red, or yellow according to its LOWERCASED form
being active, shutoff, or build/rebuild, and to the neutral glyph exactly
when the lowercased status is none of these. (As literally stated the
claim fails on upper-case statuses: see the counterexample.) -/
theorem C7_glyph_lookup (s : String) :
    (getStatusEmoji s = "🟢" ∨ getStatusEmoji s = "🔴" ∨
      getStatusEmoji s = "🟡" ∨ getStatusEmoji s = "⚪") ∧
    (strLower s = "active" → getStatusEmoji s = "🟢") ∧
    (strLower s = "shutoff" → getStatusEmoji s = "🔴") ∧
    ((strLower s = "build" ∨ strLower s = "rebuild") → getStatusEmoji s = "🟡") ∧
    (strLower s ≠ "active" → strLower s ≠ "shutoff" → strLower s ≠ "build" →
      strLower s ≠ "rebuild" → getStatusEmoji s = "⚪") := by
  unfold getStatusEmoji
  by_cases h1 : strLower s = "active"
  · refine ⟨Or.inl ?_, ?_, ?_, ?_, ?_⟩ <;> simp [h1]
  by_cases h2 : strLower s = "shutoff"
  · refine ⟨Or.inr (Or.inl ?_), ?_, ?_, ?_, ?_⟩ <;> simp [h1, h2]
  by_cases h3 : strLower s = "build"
  · refine ⟨Or.inr (Or.inr (Or.inl ?_)), ?_, ?_, ?_, ?_⟩ <;> simp [h1, h2, h3]
  by_cases h4 : strLower s = "rebuild"
  · refine ⟨Or.inr (Or.inr (Or.inl ?_)), ?_, ?_, ?_, ?_⟩ <;> simp [h1, h2, h3, h4]
  · refine ⟨Or.inr (Or.inr (Or.inr ?_)), ?_, ?_, ?_, ?_⟩ <;> simp [h1, h2, h3, h4]

/-- Witness for C7's amended theorem: the mixed-case status Build renders
as the yellow glyph. -/
theorem C7_witness : getStatusEmoji "Build" = "🟡" :=
  (C7_glyph_lookup "Build").2.2.2.1 (by decide)

/-- Counterexample to C7 as stated: the status string ACTIVE is not one of
the four literals active, shutoff, build, rebuild, so the claim assigns it
the neutral glyph, yet the code renders it green (the lookup lowercases
first). -/
theorem C7_counterexample :
    getStatusEmoji "ACTIVE" = "🟢" ∧ "ACTIVE" ≠ "active" ∧
      "ACTIVE" ≠ "shutoff" ∧ "ACTIVE" ≠ "build" ∧ "ACTIVE" ≠ "rebuild" ∧
      ("🟢" : String) ≠ "⚪" := by
  decide

/-- C8: an action identifier that is none of the recognized identifiers and
does not begin with details_, start_, stop_, or reboot_ falls through the
whole routing chain: no handler runs, no cloud operation is routed, and no
reply of any kind (error included) is produced. -/
theorem C8_unmatched_ignored (allowed : List String) (data : String)
    (cloud : Cloud)
    (h1 : data ≠ "start_all") (h2 : data ≠ "stop_all")
    (h3 : data ≠ "view_machines")
    (h4 : strStartsWith data "details_" = false)
    (h5 : strStartsWith data "start_" = false)
    (h6 : strStartsWith data "stop_" = false)
    (h7 : strStartsWith data "reboot_" = false)
    (h8 : data ≠ "system_status") (h9 : data ≠ "back_to_main") :
    route allowed data cloud = ([], Except.ok none) := by
  unfold route
  rw [if_neg h1, if_neg h2, if_neg h3, if_neg (by simp [h4]),
    if_neg (by simp [h5]), if_neg (by simp [h6]), if_neg (by simp [h7]),
    if_neg h8, if_neg h9]

/-- Witness for C8: the unrecognized identifier bogus is silently ignored
by the router. -/
theorem C8_witness : route ["web1"] "bogus" exCloud = ([], Except.ok none) :=
  C8_unmatched_ignored ["web1"] "bogus" exCloud (by decide) (by decide)
    (by decide) rfl rfl rfl rfl (by decide) (by decide)

/-- C9: the details action checks no resource allow-list: whatever machine
the id resolves to — here one whose name is NOT allow-listed — the handler
fetches the machine, fetches its flavor, and displays the details. -/
theorem C9_details_no_allowlist_check (allowed : List String) (data : String)
    (cloud : Cloud) (m : Machine) (f : Flavor)
    (hget : cloud.getServerRes (machineIdOf data) = Except.ok m)
    (hfl : cloud.findFlavorRes m.flavorId = Except.ok f)
    (_hden : allowed.contains m.name = false) :
    handleDetails data cloud =
      ([CloudCall.getServer (machineIdOf data),
          CloudCall.findFlavor m.flavorId],
        Except.ok (some (detailsText m f))) := by
  unfold handleDetails
  dsimp only
  rw [hget]
  dsimp only
  rw [hfl]

/-- Witness for C9: machine m1 resolves to db1, which is outside the
allow-list [web1, web2], yet its details are fetched and displayed. -/
theorem C9_witness :
    handleDetails "details_m1" exCloud =
      ([CloudCall.getServer "m1", CloudCall.findFlavor "f1"],
        Except.ok (some (detailsText dbMachine exFlavor))) := by
  have h := C9_details_no_allowlist_check ["web1", "web2"] "details_m1"
    exCloud dbMachine exFlavor rfl rfl (by decide)
  rw [h]
  rfl

/-- C10: the id handed to the cloud accessor by every parameterized handler
is `machineIdOf data`, the block of the callback data between the first and
second underscore; on a compound id the parsed block is a strict truncation
of the full id, so the handlers act on the truncated id. -/
theorem C10_truncated_id (op id1 id2 : String) (allowed : List String)
    (data : String) (cloud : Cloud)
    (hop : '_' ∉ op.data) (h1 : '_' ∉ id1.data) :
    machineIdOf (op ++ "_" ++ id1 ++ "_" ++ id2) = id1 ∧
    id1 ≠ id1 ++ "_" ++ id2 ∧
    (handleDetails data cloud).1.head? =
      some (CloudCall.getServer (machineIdOf data)) ∧
    (handleStart allowed data cloud).1.head? =
      some (CloudCall.getServer (machineIdOf data)) ∧
    (handleStop allowed data cloud).1.head? =
      some (CloudCall.getServer (machineIdOf data)) ∧
    (handleReboot allowed data cloud).1.head? =
      some (CloudCall.getServer (machineIdOf data)) := by
  refine ⟨?_, ?_, ?_, ?_, ?_, ?_⟩
  · have hdata : (op ++ "_" ++ id1 ++ "_" ++ id2).data =
        op.data ++ '_' :: (id1.data ++ '_' :: id2.data) := by
      simp [String.data_append]
    unfold machineIdOf
    rw [hdata, splitU_append op.data _ hop, splitU_append id1.data _ h1]
    exact string_mk_data id1
  · intro he
    have hl := congrArg (fun s : String => s.data.length) he
    simp [String.data_append] at hl
  · unfold handleDetails
    dsimp only
    split
    · rfl
    · split <;> rfl
  · unfold handleStart
    dsimp only
    split
    · rfl
    · split
      · rfl
      · split <;> rfl
  · unfold handleStop
    dsimp only
    split
    · rfl
    · split
      · rfl
      · split <;> rfl
  · unfold handleReboot
    dsimp only
    split
    · rfl
    · split
      · rfl
      · split <;> rfl

/-- Witness for C10: the data start_abc_def is parsed to the truncated id
abc, not the full compound id abc_def. -/
theorem C10_witness :
    machineIdOf ("start" ++ "_" ++ "abc" ++ "_" ++ "def") = "abc" :=
  (C10_truncated_id "start" "abc" "def" [] "start_x" exCloud (by decide)
    (by decide)).1

end TeleStack
